import Mathlib

/-!
Verification development for `pkg/resources/statefulsets/minio-statefulset.go`
of the minio-operator repository.

The file shallowly embeds the statefulset construction code: the Kubernetes
API objects the code builds are modelled as plain Lean structures, Go maps of
labels are modelled as association lists with replace-on-insert semantics, and
the external `miniov1.MinIOInstance` accessors (which live outside this
package) are modelled from the specification as opaque fields or direct
derivations on the instance value.  The partiality of the unguarded
`mi.Spec.Zones[0]` access is made explicit with `Option`.
-/

/-! ## Package constants

Modelled from the spec: these are package-level constants of the external
custom-resource API package (`miniov1`); their exact string values are not
visible in the embedded source file, only their roles, so representative
fixed values are chosen.  No theorem below depends on the particular values,
only on which construction sites share which constant. -/

/-- Modelled from the spec: the mandatory instance-identity label key. -/
def InstanceLabel : String := "v1.min.io/instance"

/-- Modelled from the spec: default base name for the storage volume when no
volume-claim template is configured. -/
def MinIOVolumeName : String := "export"

/-- Modelled from the spec: the canonical storage mount path. -/
def MinIOVolumeMountPath : String := "/export"

/-- Modelled from the spec: the fixed name of the produced server container. -/
def MinIOServerName : String := "minio"

/-- Modelled from the spec: fixed container port of the server. -/
def MinIOPort : Nat := 9000

/-- Modelled from the spec: fixed port of the encryption-key-service. -/
def KESPort : Nat := 7373

/-- Modelled from the spec: literal key-name identifier handed to the
encryption-key-service integration. -/
def KESMinIOKey : String := "my-minio-key"

/-- Modelled from the spec: package-wide default image pull policy. -/
def DefaultImagePullPolicy : String := "IfNotPresent"

/-- Modelled from the spec: package-wide default update strategy. -/
def DefaultUpdateStrategy : String := "RollingUpdate"

/-- Modelled from the spec: URL scheme used for peer addresses. -/
def Scheme : String := "https"

/-- Modelled from the spec: API group of the custom resource. -/
def SchemeGroup : String := "operator.min.io"

/-- Modelled from the spec: API version of the custom resource. -/
def SchemeVersion : String := "v1"

/-- Modelled from the spec: CRD resource kind used for the owner reference. -/
def MinIOCRDResourceKind : String := "MinIOInstance"

/-! ## Kubernetes API object model -/

/-- Embeds `corev1.SecretKeySelector` (secret name plus key). -/
structure SecretKeySelector where
  name : String
  key : String
deriving DecidableEq, Repr

/-- Embeds `corev1.EnvVar`: a name with either a literal value or a
secret-key reference. -/
structure EnvVar where
  name : String
  value : String := ""
  valueFrom : Option SecretKeySelector := none
deriving DecidableEq, Repr

/-- Embeds `corev1.KeyToPath` (projection of a secret key to a file path). -/
structure KeyToPath where
  key : String
  path : String
deriving DecidableEq, Repr

/-- Embeds `corev1.SecretProjection`. -/
structure SecretProjection where
  name : String
  items : List KeyToPath
deriving DecidableEq, Repr

/-- Embeds `corev1.VolumeProjection` (the code only ever uses the secret
variant). -/
structure VolumeProjection where
  secret : SecretProjection
deriving DecidableEq, Repr

/-- Embeds `corev1.VolumeSource` restricted to the two variants the code
constructs: an empty-dir scratch volume and a projected secret volume. -/
inductive VolumeSource where
  | emptyDir (medium : String)
  | projected (sources : List VolumeProjection)
deriving DecidableEq, Repr

/-- Embeds `corev1.Volume`. -/
structure Volume where
  name : String
  volumeSource : VolumeSource
deriving DecidableEq, Repr

/-- Embeds `corev1.VolumeMount`. -/
structure VolumeMount where
  name : String
  mountPath : String
deriving DecidableEq, Repr

/-- Embeds `corev1.LocalObjectReference`. -/
structure LocalObjectReference where
  name : String := ""
deriving DecidableEq, Repr

/-- Embeds `corev1.ContainerPort` (only the port number is set by the code). -/
structure ContainerPort where
  containerPort : Nat
deriving DecidableEq, Repr

/-- Payload of `corev1.ResourceRequirements`, copied through opaquely. -/
structure ResourceRequirements where
  raw : String := ""
deriving DecidableEq, Repr

/-- Payload of `corev1.Probe`, copied through opaquely. -/
structure Probe where
  raw : String := ""
deriving DecidableEq, Repr

/-- Payload of `corev1.Toleration`, copied through opaquely. -/
structure Toleration where
  raw : String := ""
deriving DecidableEq, Repr

/-- Payload of `corev1.PodSecurityContext`, copied through opaquely. -/
structure PodSecurityContext where
  raw : String := ""
deriving DecidableEq, Repr

/-- Payload of `corev1.Affinity`, copied through opaquely. -/
structure Affinity where
  raw : String := ""
deriving DecidableEq, Repr

/-- Embeds `corev1.Container` restricted to the fields the code sets. -/
structure Container where
  name : String
  image : String
  ports : List ContainerPort
  imagePullPolicy : String
  volumeMounts : List VolumeMount
  args : List String
  env : List EnvVar
  resources : ResourceRequirements
  livenessProbe : Option Probe
  readinessProbe : Option Probe
deriving DecidableEq, Repr

/-- Embeds `metav1.OwnerReference` restricted to the fields the code sets. -/
structure OwnerReference where
  group : String
  version : String
  kind : String
  name : String
deriving DecidableEq, Repr

/-- Embeds `metav1.ObjectMeta` restricted to the fields the code reads or
writes.  Go label/annotation maps are modelled as association lists with
replace-on-insert semantics (see `insertLabel`). -/
structure ObjectMeta where
  name : String := ""
  namespaceName : String := ""
  labels : List (String × String) := []
  annotations : List (String × String) := []
  ownerReferences : List OwnerReference := []
deriving DecidableEq, Repr

/-- Embeds `metav1.LabelSelector` restricted to match-labels. -/
structure LabelSelector where
  matchLabels : List (String × String) := []
deriving DecidableEq, Repr

/-- Embeds `corev1.PersistentVolumeClaim`: a name plus an opaque payload for
all remaining fields, which the code copies through unchanged. -/
structure PersistentVolumeClaim where
  name : String := ""
  claimSpec : String := ""
deriving DecidableEq, Repr

/-- Embeds `corev1.PodSpec` restricted to the fields the code sets. -/
structure PodSpec where
  containers : List Container
  volumes : List Volume
  imagePullSecrets : List LocalObjectReference
  restartPolicy : String
  affinity : Option Affinity
  schedulerName : String
  tolerations : List Toleration
  securityContext : PodSecurityContext
deriving DecidableEq, Repr

/-- Embeds `corev1.PodTemplateSpec`. -/
structure PodTemplateSpec where
  metadata : ObjectMeta
  spec : PodSpec
deriving DecidableEq, Repr

/-- Embeds `appsv1.StatefulSetSpec` restricted to the fields the code sets. -/
structure StatefulSetSpec where
  updateStrategy : String
  podManagementPolicy : String
  selector : LabelSelector
  serviceName : String
  replicas : Int
  template : PodTemplateSpec
  volumeClaimTemplates : List PersistentVolumeClaim := []
deriving DecidableEq, Repr

/-- Embeds `appsv1.StatefulSet`. -/
structure StatefulSet where
  metadata : ObjectMeta
  spec : StatefulSetSpec
deriving DecidableEq, Repr

/-! ## Association-list label maps

Go `map[string]string` values are modelled as association lists whose insert
replaces an existing binding for the key; lookup returns the binding. -/

/-- Replace-on-insert for an association list, modelling Go map assignment. -/
def insertLabel : List (String × String) → String → String → List (String × String)
  | [], k, v => [(k, v)]
  | p :: rest, k, v =>
    if p.1 = k then (k, v) :: rest else p :: insertLabel rest k v

/-- Lookup in an association list, modelling Go map indexing. -/
def lookupKV : List (String × String) → String → Option String
  | [], _ => none
  | p :: rest, k => if p.1 = k then some p.2 else lookupKV rest k

/-- Apply every binding of `overlay` over `base`, last write wins; models the
Go `for k, v := range overlay { base[k] = v }` loop. -/
def overlayLabels (base overlay : List (String × String)) : List (String × String) :=
  overlay.foldl (fun acc p => insertLabel acc p.1 p.2) base

/-! ## The MinIOInstance input model -/

/-- Embeds `miniov1.Zone`: a named group of servers. -/
structure Zone where
  name : String
  servers : Nat
deriving DecidableEq, Repr

/-- Modelled from the spec: the reference to an externally supplied
certificate secret, carrying a name and a secret type string. -/
structure LocalCertificateReference where
  name : String := ""
  type_ : String := ""
deriving DecidableEq, Repr

/-- Embeds the fields of `miniov1.MinIOInstanceSpec` that the statefulset
code reads.  Pointer-typed optional fields become `Option`. -/
structure MinIOInstanceSpec where
  image : String := ""
  env : List EnvVar := []
  credsSecret : Option LocalObjectReference := none
  metadata : Option ObjectMeta := none
  selector : Option LabelSelector := none
  volumeClaimTemplate : Option PersistentVolumeClaim := none
  volumesPerServer : Nat := 0
  zones : List Zone := []
  requestAutoCert : Bool := false
  externalCertSecret : Option LocalCertificateReference := none
  kesEnabled : Bool := false
  resources : ResourceRequirements := {}
  liveness : Option Probe := none
  readiness : Option Probe := none
  tolerations : List Toleration := []
  securityContext : Option PodSecurityContext := none
  podManagementPolicy : String := ""
  affinity : Option Affinity := none
  imagePullSecret : LocalObjectReference := {}
deriving DecidableEq, Repr

/-- Embeds `miniov1.MinIOInstance`.  The derived accessor values the code
consumes as black boxes (peer hosts, replica count, derived secret and
service names) are modelled from the spec as opaque fields of the instance. -/
structure MinIOInstance where
  name : String := ""
  namespaceName : String := ""
  schedulerName : String := ""
  spec : MinIOInstanceSpec := {}
  minIOHosts : List String := []
  minIOReplicas : Int := 0
  volumePath : String := ""
  kesServiceHost : String := ""
  minIOStatefulSetName : String := ""
  minIOTLSSecretName : String := ""
  minIOClientTLSSecretName : String := ""
  kesTLSSecretName : String := ""
deriving DecidableEq, Repr

/-- Modelled from the spec: `mi.HasCredsSecret()` tests presence of the
credential secret reference. -/
def MinIOInstance.HasCredsSecret (mi : MinIOInstance) : Bool :=
  mi.spec.credsSecret.isSome

/-- Modelled from the spec: `mi.HasMetadata()` tests presence of user
metadata. -/
def MinIOInstance.HasMetadata (mi : MinIOInstance) : Bool :=
  mi.spec.metadata.isSome

/-- Modelled from the spec: `mi.HasSelector()` tests presence of a user
label selector. -/
def MinIOInstance.HasSelector (mi : MinIOInstance) : Bool :=
  mi.spec.selector.isSome

/-- Modelled from the spec: `mi.HasKESEnabled()` tests whether the
encryption-key-service integration is enabled. -/
def MinIOInstance.HasKESEnabled (mi : MinIOInstance) : Bool :=
  mi.spec.kesEnabled

/-- Modelled from the spec: `mi.RequiresAutoCertSetup()` tests whether
self-signed certificates are requested. -/
def MinIOInstance.RequiresAutoCertSetup (mi : MinIOInstance) : Bool :=
  mi.spec.requestAutoCert

/-- Modelled from the spec: `mi.RequiresExternalCertSetup()` tests presence
of an externally supplied certificate secret. -/
def MinIOInstance.RequiresExternalCertSetup (mi : MinIOInstance) : Bool :=
  mi.spec.externalCertSecret.isSome

/-- Modelled from the spec: `mi.MinIOPodLabels()` is the mandatory
instance-identity label, mapping the identity key to the derived statefulset
name (the same value the descriptor's selector uses). -/
def MinIOInstance.MinIOPodLabels (mi : MinIOInstance) : List (String × String) :=
  [(InstanceLabel, mi.minIOStatefulSetName)]

/-- Modelled from the spec: `net.JoinHostPort`. -/
def joinHostPort (host : String) (port : Nat) : String :=
  if host.contains ':' then "[" ++ host ++ "]:" ++ toString port
  else host ++ ":" ++ toString port

/-! ## Embedded statefulset construction code

Each definition below embeds the homonymous Go function of
`pkg/resources/statefulsets/minio-statefulset.go`; local sub-computations of
`NewForMinIO` are factored into named definitions with identical content. -/

/-- Embeds `minioEnvironmentVars`: user env first, then (when a credential
secret is configured) two secret-key references, then (when the
encryption-key-service is enabled) the five KMS entries. -/
def minioEnvironmentVars (mi : MinIOInstance) : List EnvVar :=
  let envVars := mi.spec.env
  let envVars :=
    match mi.spec.credsSecret with
    | some cs =>
        envVars ++
          [ { name := "MINIO_ACCESS_KEY",
              valueFrom := some { name := cs.name, key := "accesskey" } },
            { name := "MINIO_SECRET_KEY",
              valueFrom := some { name := cs.name, key := "secretkey" } } ]
    | none => envVars
  let envVars :=
    if mi.HasKESEnabled then
      envVars ++
        [ { name := "MINIO_KMS_KES_ENDPOINT",
            value := "https://" ++ joinHostPort mi.kesServiceHost KESPort },
          { name := "MINIO_KMS_KES_CERT_FILE",
            value := "/root/.minio/certs/client.crt" },
          { name := "MINIO_KMS_KES_KEY_FILE",
            value := "/root/.minio/certs/client.key" },
          { name := "MINIO_KMS_KES_CA_PATH",
            value := "/root/.minio/certs/CAs/server.crt" },
          { name := "MINIO_KMS_KES_KEY_NAME",
            value := KESMinIOKey } ]
    else envVars
  envVars

/-- Embeds `minioMetadata`: start from user metadata when present (the Go
nil-map initialisation is a no-op in the list model), overlay the mandatory
identity label, then overlay user selector match-labels. -/
def minioMetadata (mi : MinIOInstance) : ObjectMeta :=
  let meta := mi.spec.metadata.getD {}
  let meta := { meta with labels := overlayLabels meta.labels mi.MinIOPodLabels }
  match mi.spec.selector with
  | some sel => { meta with labels := overlayLabels meta.labels sel.matchLabels }
  | none => meta

/-- Embeds the `name` local of `volumeMounts`: the volume-claim template's
base name, or the default volume name when no template is configured. -/
def volumeBaseName (mi : MinIOInstance) : String :=
  match mi.spec.volumeClaimTemplate with
  | some t => t.name
  | none => MinIOVolumeName

/-- Embeds `volumeMounts`: one index-suffixed storage mount per configured
volume (the single-volume case mounts at the unsuffixed canonical path),
plus the TLS certificate mount when certificate material is required. -/
def volumeMounts (mi : MinIOInstance) : List VolumeMount :=
  let mounts :=
    if mi.spec.volumesPerServer = 1 then
      [ { name := volumeBaseName mi ++ toString 0,
          mountPath := MinIOVolumeMountPath } ]
    else
      (List.range mi.spec.volumesPerServer).map fun i =>
        { name := volumeBaseName mi ++ toString i,
          mountPath := MinIOVolumeMountPath ++ toString i }
  if mi.RequiresAutoCertSetup || mi.RequiresExternalCertSetup then
    mounts ++ [ { name := mi.minIOTLSSecretName, mountPath := "/root/.minio/certs" } ]
  else mounts

/-- Embeds the argument construction of `minioServerContainer`.  The Go code
indexes `mi.Spec.Zones[0]` without a guard; the empty-zone case surfaces as
`none`. -/
def minioArgs (mi : MinIOInstance) : Option (List String) :=
  match mi.spec.zones with
  | [] => none
  | z0 :: _ =>
    if z0.servers = 1 then
      some ["server", MinIOVolumeMountPath]
    else
      some ("server" :: mi.minIOHosts.map fun h => Scheme ++ "://" ++ h ++ mi.volumePath)

/-- Embeds the container literal of `minioServerContainer`, given the
already-computed args. -/
def minioContainerFor (mi : MinIOInstance) (args : List String) : Container :=
  { name := MinIOServerName
    image := mi.spec.image
    ports := [ { containerPort := MinIOPort } ]
    imagePullPolicy := DefaultImagePullPolicy
    volumeMounts := volumeMounts mi
    args := args
    env := minioEnvironmentVars mi
    resources := mi.spec.resources
    livenessProbe := mi.spec.liveness
    readinessProbe := mi.spec.readiness }

/-- Embeds `minioServerContainer`. -/
def minioServerContainer (mi : MinIOInstance) (serviceName : String) : Option Container :=
  ( minioArgs mi).map (minioContainerFor mi)

/-- Embeds `minioTolerations` (an element-wise copy of the spec list). -/
def minioTolerations (mi : MinIOInstance) : List Toleration :=
  mi.spec.tolerations

/-- Embeds `minioSecurityContext`. -/
def minioSecurityContext (mi : MinIOInstance) : PodSecurityContext :=
  mi.spec.securityContext.getD {}

/-- Embeds `getVolumesForContainer`: one empty-dir volume per zone when no
volume-claim template is configured, nothing otherwise. -/
def getVolumesForContainer (mi : MinIOInstance) : List Volume :=
  match mi.spec.volumeClaimTemplate with
  | none =>
      mi.spec.zones.map fun z =>
        { name := z.name, volumeSource := VolumeSource.emptyDir "" }
  | some _ => []

/-- Embeds the `keyPaths` default of `NewForMinIO` (the self-signed
convention). -/
def defaultKeyPaths : List KeyToPath :=
  [ { key := "public.crt", path := "public.crt" },
    { key := "private.key", path := "private.key" },
    { key := "public.crt", path := "CAs/public.crt" } ]

/-- Embeds the `MinIOCertKeyPaths` local of `NewForMinIO` (client mutual-TLS
key pair). -/
def MinIOCertKeyPaths : List KeyToPath :=
  [ { key := "public.crt", path := "client.crt" },
    { key := "private.key", path := "client.key" } ]

/-- Embeds the `KESCertKeyPaths` local of `NewForMinIO` (key-service CA). -/
def KESCertKeyPaths : List KeyToPath :=
  [ { key := "public.crt", path := "CAs/server.crt" } ]

/-- Embeds the `secretName`/`keyPaths` computation of `NewForMinIO`
(lines 243-260): self-signed mode wins, then the two recognised external
secret types select their key-naming conventions, and any other external
type falls back to the self-signed convention's key names. -/
def tlsSecretNameAndKeyPaths (mi : MinIOInstance) : String × List KeyToPath :=
  if mi.RequiresAutoCertSetup then
    (mi.minIOTLSSecretName, defaultKeyPaths)
  else if mi.RequiresExternalCertSetup then
    match mi.spec.externalCertSecret with
    | some ecs =>
      if ecs.type_ = "kubernetes.io/tls" then
        (ecs.name,
          [ { key := "tls.crt", path := "public.crt" },
            { key := "tls.key", path := "private.key" },
            { key := "tls.crt", path := "CAs/public.crt" } ])
      else if ecs.type_ = "cert-manager.io/v1alpha2" then
        (ecs.name,
          [ { key := "tls.crt", path := "public.crt" },
            { key := "tls.key", path := "private.key" },
            { key := "ca.crt", path := "CAs/public.crt" } ])
      else (ecs.name, defaultKeyPaths)
    | none => ("", defaultKeyPaths)
  else ("", defaultKeyPaths)

/-- Embeds the pod-volume assembly of `NewForMinIO` (lines 262-302): the
container volumes plus, when certificate material is required, one projected
TLS volume whose sources are the primary certificate secret and, when the
encryption-key-service is enabled, the client mutual-TLS secret and the
key-service CA secret. -/
def minioPodVolumes (mi : MinIOInstance) : List Volume :=
  let podVolumes := getVolumesForContainer mi
  if mi.RequiresAutoCertSetup || mi.RequiresExternalCertSetup then
    let snk := tlsSecretNameAndKeyPaths mi
    let sources := [ { secret := { name := snk.1, items := snk.2 } : VolumeProjection } ]
    let sources :=
      if mi.HasKESEnabled then
        sources ++
          [ { secret := { name := mi.minIOClientTLSSecretName, items := MinIOCertKeyPaths } },
            { secret := { name := mi.kesTLSSecretName, items := KESCertKeyPaths } } ]
      else sources
    podVolumes ++
      [ { name := mi.minIOTLSSecretName,
          volumeSource := VolumeSource.projected sources } ]
  else podVolumes

/-- Embeds the volume-claim-template loop of `NewForMinIO` (lines 346-353):
one copy of the user template per volume-per-server, index-suffixed. -/
def minioVolumeClaimTemplates (mi : MinIOInstance) : List PersistentVolumeClaim :=
  match mi.spec.volumeClaimTemplate with
  | some pvClaim =>
      (List.range mi.spec.volumesPerServer).map fun i =>
        { pvClaim with name := pvClaim.name ++ toString i }
  | none => []

/-- Embeds the statefulset literal of `NewForMinIO`, given the
already-computed container. -/
def buildStatefulSet (mi : MinIOInstance) (serviceName : String) (c : Container) : StatefulSet :=
  { metadata :=
      { name := mi.name
        namespaceName := mi.namespaceName
        ownerReferences :=
          [ { group := SchemeGroup, version := SchemeVersion,
              kind := MinIOCRDResourceKind, name := mi.name } ] }
    spec :=
      { updateStrategy := DefaultUpdateStrategy
        podManagementPolicy := mi.spec.podManagementPolicy
        selector := { matchLabels := [(InstanceLabel, mi.minIOStatefulSetName)] }
        serviceName := serviceName
        replicas := mi.minIOReplicas
        template :=
          { metadata := minioMetadata mi
            spec :=
              { containers := [c]
                volumes := minioPodVolumes mi
                imagePullSecrets := [mi.spec.imagePullSecret]
                restartPolicy := "Always"
                affinity := mi.spec.affinity
                schedulerName := mi.schedulerName
                tolerations := minioTolerations mi
                securityContext := minioSecurityContext mi } }
        volumeClaimTemplates := minioVolumeClaimTemplates mi } }

/-- Embeds `NewForMinIO`.  The only partiality is the container's unguarded
first-zone access, surfaced through `Option`. -/
def NewForMinIO (mi : MinIOInstance) (serviceName : String) : Option StatefulSet :=
  ( minioServerContainer mi serviceName).map (buildStatefulSet mi serviceName)

/-- The (unique) server container of a produced descriptor. -/
def minioContainerOf (ss : StatefulSet) : Option Container :=
  ss.spec.template.spec.containers.head?

/-- The names of the five env entries the KMS/KES integration appends. -/
def kmsEnvNames : List String :=
  [ "MINIO_KMS_KES_ENDPOINT", "MINIO_KMS_KES_CERT_FILE", "MINIO_KMS_KES_KEY_FILE",
    "MINIO_KMS_KES_CA_PATH", "MINIO_KMS_KES_KEY_NAME" ]

/-- The credential-secret segment of the env list (two secret-key
references, or nothing when no secret is configured). -/
def credsEnvPart (mi : MinIOInstance) : List EnvVar :=
  match mi.spec.credsSecret with
  | some cs =>
      [ { name := "MINIO_ACCESS_KEY",
          valueFrom := some { name := cs.name, key := "accesskey" } },
        { name := "MINIO_SECRET_KEY",
          valueFrom := some { name := cs.name, key := "secretkey" } } ]
  | none => []

/-- The KMS/KES segment of the env list (five entries when the
encryption-key-service is enabled, nothing otherwise). -/
def kesEnvPart (mi : MinIOInstance) : List EnvVar :=
  if mi.HasKESEnabled then
    [ { name := "MINIO_KMS_KES_ENDPOINT",
        value := "https://" ++ joinHostPort mi.kesServiceHost KESPort },
      { name := "MINIO_KMS_KES_CERT_FILE", value := "/root/.minio/certs/client.crt" },
      { name := "MINIO_KMS_KES_KEY_FILE", value := "/root/.minio/certs/client.key" },
      { name := "MINIO_KMS_KES_CA_PATH", value := "/root/.minio/certs/CAs/server.crt" },
      { name := "MINIO_KMS_KES_KEY_NAME", value := KESMinIOKey } ]
  else []

/-! ## Concrete example instances used by counterexamples and witnesses -/

/-- Example: self-signed certificates, KES enabled, persistent template with
two volumes per server, one zone of four servers. -/
def exA : MinIOInstance :=
  { name := "tenant"
    namespaceName := "ns"
    schedulerName := "sched"
    spec :=
      { image := "minio/minio:RELEASE"
        env := [ { name := "USER_VAR", value := "uv" } ]
        credsSecret := some { name := "creds-secret" }
        metadata := none
        selector := none
        volumeClaimTemplate := some { name := "data", claimSpec := "cs" }
        volumesPerServer := 2
        zones := [ { name := "zone-0", servers := 4 } ]
        requestAutoCert := true
        externalCertSecret := none
        kesEnabled := true
        resources := { raw := "limits" }
        liveness := some { raw := "live" }
        readiness := some { raw := "ready" }
        tolerations := [ { raw := "tol" } ]
        securityContext := some { raw := "sc" }
        podManagementPolicy := "Parallel"
        affinity := some { raw := "aff" }
        imagePullSecret := { name := "pull" } }
    minIOHosts := ["tenant-0.svc", "tenant-1.svc", "tenant-2.svc", "tenant-3.svc"]
    minIOReplicas := 4
    volumePath := "/export"
    kesServiceHost := "tenant-kes-hl-svc"
    minIOStatefulSetName := "tenant-ss"
    minIOTLSSecretName := "tenant-tls"
    minIOClientTLSSecretName := "tenant-client-tls"
    kesTLSSecretName := "tenant-kes-tls" }

/-- The descriptor produced from `exA`. -/
def ssA : StatefulSet :=
  buildStatefulSet exA "svc"
    (minioContainerFor exA
      ("server" :: exA.minIOHosts.map fun h => Scheme ++ "://" ++ h ++ exA.volumePath))

/-- Example: certificate mode none, KES disabled, no persistent template,
two zones, one volume per server. -/
def exB : MinIOInstance :=
  { name := "small"
    spec :=
      { image := "minio/minio"
        volumesPerServer := 1
        zones := [ { name := "z0", servers := 1 }, { name := "z1", servers := 3 } ] }
    minIOStatefulSetName := "small-ss"
    minIOTLSSecretName := "small-tls" }

/-- The descriptor produced from `exB`. -/
def ssB : StatefulSet :=
  buildStatefulSet exB "svc" (minioContainerFor exB ["server", MinIOVolumeMountPath])

/-- Example: external certificate secret of an unrecognised type, KES
disabled, two servers. -/
def exC : MinIOInstance :=
  { name := "ext"
    spec :=
      { zones := [ { name := "zc", servers := 2 } ]
        volumesPerServer := 1
        externalCertSecret := some { name := "ext-secret", type_ := "mysterious/type" } }
    minIOHosts := ["e-0", "e-1"]
    volumePath := "/export"
    minIOTLSSecretName := "ext-tls" }

/-- The descriptor produced from `exC`. -/
def ssC : StatefulSet :=
  buildStatefulSet exC "svc"
    (minioContainerFor exC
      ("server" :: exC.minIOHosts.map fun h => Scheme ++ "://" ++ h ++ exC.volumePath))

/-- Example for the C1 counterexample: certificate mode none but the
encryption-key-service enabled. -/
def exC1 : MinIOInstance :=
  { name := "plain"
    spec :=
      { zones := [ { name := "z0", servers := 1 } ]
        volumesPerServer := 1
        kesEnabled := true }
    kesServiceHost := "kes-host"
    minIOTLSSecretName := "plain-tls" }

/-- Example for the C2 counterexample: the user selector match-labels rebind
the identity key to a different value than the composer's. -/
def exC2 : MinIOInstance :=
  { name := "sel"
    spec :=
      { zones := [ { name := "z0", servers := 1 } ]
        volumesPerServer := 1
        selector := some { matchLabels := [(InstanceLabel, "evil")] } }
    minIOStatefulSetName := "good" }

/-- Example for the C3 counterexample: ephemeral storage with two zones but
a single volume per server. -/
def exC3 : MinIOInstance :=
  { name := "eph"
    spec :=
      { zones := [ { name := "z0", servers := 1 }, { name := "z1", servers := 3 } ]
        volumesPerServer := 1 } }

/-- Example for the C4 counterexample (first of a fully differing pair). -/
def exC4a : MinIOInstance :=
  { name := "a"
    spec :=
      { image := "img-a"
        env := [ { name := "E", value := "1" } ]
        credsSecret := some { name := "ca" }
        volumesPerServer := 1
        zones := [ { name := "az", servers := 1 } ]
        requestAutoCert := true
        kesEnabled := true
        resources := { raw := "res-a" }
        liveness := some { raw := "live-a" }
        readiness := some { raw := "ready-a" }
        podManagementPolicy := "Parallel" }
    kesServiceHost := "kes-a"
    minIOTLSSecretName := "a-tls" }

/-- Example for the C4 counterexample (second of a fully differing pair). -/
def exC4b : MinIOInstance :=
  { name := "b"
    spec :=
      { image := "img-b"
        volumesPerServer := 3
        zones := [ { name := "bz", servers := 2 } ]
        resources := { raw := "res-b" } }
    minIOHosts := ["b-0", "b-1"] }

/-! ## Helper lemmas -/

/-- Destructing a successful `NewForMinIO` run: the args computation
succeeded and the result is the statefulset built over the container. -/
lemma newForMinIO_some {mi : MinIOInstance} {s : String} {ss : StatefulSet}
    (h : NewForMinIO mi s = some ss) :
    ∃ args, minioArgs mi = some args ∧
      ss = buildStatefulSet mi s (minioContainerFor mi args) := by
  unfold NewForMinIO minioServerContainer at h
  rcases ha : minioArgs mi with _ | args
  · rw [ha] at h
    simp at h
  · rw [ha] at h
    simp only [Option.map_some', Option.some.injEq] at h
    exact ⟨args, rfl, h.symm⟩

/-- The produced pod template holds exactly the one built container. -/
lemma minioContainerOf_build (mi : MinIOInstance) (s : String) (c : Container) :
    minioContainerOf (buildStatefulSet mi s c) = some c := rfl

/-- Lookup after a replace-on-insert at the same key. -/
lemma lookupKV_insertLabel_self (m : List (String × String)) (k v : String) :
    lookupKV (insertLabel m k v) k = some v := by
  induction m with
  | nil => simp [insertLabel, lookupKV]
  | cons p rest ih =>
    by_cases hp : p.1 = k
    · simp [insertLabel, hp, lookupKV]
    · simp [insertLabel, hp, lookupKV, ih]

/-- Lookup after a replace-on-insert at a different key. -/
lemma lookupKV_insertLabel_ne (m : List (String × String)) (k v k' : String)
    (h : k ≠ k') :
    lookupKV (insertLabel m k v) k' = lookupKV m k' := by
  induction m with
  | nil => simp [insertLabel, lookupKV, h]
  | cons p rest ih =>
    by_cases hp : p.1 = k
    · simp [insertLabel, hp, lookupKV, h]
    · simp [insertLabel, hp, lookupKV, ih]

/-- Overlaying a mapping that does not bind `k` preserves the lookup of
`k`. -/
lemma lookupKV_overlay_of_none :
    ∀ (ov base : List (String × String)) (k : String),
      lookupKV ov k = none →
      lookupKV (overlayLabels base ov) k = lookupKV base k := by
  intro ov
  induction ov with
  | nil => intro base k _; rfl
  | cons p rest ih =>
    intro base k h
    simp only [lookupKV] at h
    by_cases hp : p.1 = k
    · rw [if_pos hp] at h
      exact absurd h (by simp)
    · rw [if_neg hp] at h
      show lookupKV (overlayLabels (insertLabel base p.1 p.2) rest) k = _
      rw [ih _ k h, lookupKV_insertLabel_ne _ _ _ _ hp]

/-- The mount list length is the volume count plus one for the certificate
mount when certificate material is required. -/
lemma volumeMounts_length (mi : MinIOInstance) :
    (volumeMounts mi).length =
      mi.spec.volumesPerServer +
        (if (mi.RequiresAutoCertSetup || mi.RequiresExternalCertSetup) = true then 1 else 0) := by
  unfold volumeMounts
  by_cases hN : mi.spec.volumesPerServer = 1 <;>
    by_cases hc : (mi.RequiresAutoCertSetup || mi.RequiresExternalCertSetup) = true <;>
      simp [hN, hc]

/-- The names of the first volumes-per-server mounts follow the
index-suffixed base-name scheme. -/
lemma volumeMounts_take_names (mi : MinIOInstance) :
    ((volumeMounts mi).take mi.spec.volumesPerServer).map VolumeMount.name =
      (List.range mi.spec.volumesPerServer).map fun i => volumeBaseName mi ++ toString i := by
  unfold volumeMounts
  by_cases hN : mi.spec.volumesPerServer = 1
  · by_cases hc : (mi.RequiresAutoCertSetup || mi.RequiresExternalCertSetup) = true <;>
      simp [hN, hc, List.range_succ]
  · have hlen : ((List.range mi.spec.volumesPerServer).map fun i =>
        ({ name := volumeBaseName mi ++ toString i,
           mountPath := MinIOVolumeMountPath ++ toString i } : VolumeMount)).length =
        mi.spec.volumesPerServer := by simp
    by_cases hc : (mi.RequiresAutoCertSetup || mi.RequiresExternalCertSetup) = true
    · rw [if_neg hN, if_pos hc, List.take_left' hlen, List.map_map]
      simp [Function.comp]
    · rw [if_neg hN, if_neg hc, List.take_of_length_le hlen.le, List.map_map]
      simp [Function.comp]

/-- The env list decomposes into the user part, the credential part and the
KMS part, in that order. -/
lemma minioEnvironmentVars_decomp (mi : MinIOInstance) :
    minioEnvironmentVars mi = (mi.spec.env ++ credsEnvPart mi) ++ kesEnvPart mi := by
  unfold minioEnvironmentVars credsEnvPart kesEnvPart
  cases hcs : mi.spec.credsSecret <;> cases hk : mi.HasKESEnabled <;> simp [hcs, hk]

/-- The credential access-key entry name is not KMS-related. -/
lemma kms_not_access : "MINIO_ACCESS_KEY" ∉ kmsEnvNames := by decide

/-- The credential secret-key entry name is not KMS-related. -/
lemma kms_not_secretkey : "MINIO_SECRET_KEY" ∉ kmsEnvNames := by decide

/-- The KES endpoint entry name is KMS-related. -/
lemma kms_has_endpoint : "MINIO_KMS_KES_ENDPOINT" ∈ kmsEnvNames := by decide

/-- The KES certificate-file entry name is KMS-related. -/
lemma kms_has_cert : "MINIO_KMS_KES_CERT_FILE" ∈ kmsEnvNames := by decide

/-- The KES key-file entry name is KMS-related. -/
lemma kms_has_key : "MINIO_KMS_KES_KEY_FILE" ∈ kmsEnvNames := by decide

/-- The KES CA-path entry name is KMS-related. -/
lemma kms_has_ca : "MINIO_KMS_KES_CA_PATH" ∈ kmsEnvNames := by decide

/-- The KES key-name entry name is KMS-related. -/
lemma kms_has_keyname : "MINIO_KMS_KES_KEY_NAME" ∈ kmsEnvNames := by decide

/-- The credential env entries carry no KMS-related names. -/
lemma credsEnvPart_no_kms (mi : MinIOInstance) :
    (credsEnvPart mi).filter (fun e => kmsEnvNames.contains e.name) = [] := by
  unfold credsEnvPart
  cases hcs : mi.spec.credsSecret with
  | none => rfl
  | some cs => simp [kms_not_access, kms_not_secretkey]

/-- Every KMS env entry carries a KMS-related name, so the filter keeps the
whole segment. -/
lemma kesEnvPart_filter (mi : MinIOInstance) :
    ((kesEnvPart mi).filter (fun e => kmsEnvNames.contains e.name)).length =
      if mi.HasKESEnabled then 5 else 0 := by
  unfold kesEnvPart
  cases hk : mi.HasKESEnabled with
  | false => rfl
  | true =>
      simp [kms_has_endpoint, kms_has_cert, kms_has_key, kms_has_ca, kms_has_keyname]

/-! ## Claim theorems -/

/-- Claim C1, counterexample: for a ClusterSpec with certificate mode none
but the encryption-key-service enabled, the produced container's env list
DOES contain the five KMS entries, refuting the claim's "no KMS/KES-related
environment variable entries ... regardless of the other spec fields
(including whether the encryption-key-service is enabled)". -/
theorem C1_counterexample :
    exC1.RequiresAutoCertSetup = false ∧
    exC1.RequiresExternalCertSetup = false ∧
    (( NewForMinIO exC1 "svc").bind minioContainerOf).map
        (fun c => (c.env.filter fun e => kmsEnvNames.contains e.name).length) = some 5 := by
  refine ⟨rfl, rfl, ?_⟩
  decide

/-- Claim C1, amended: for every ClusterSpec with certificate mode none
(neither self-signed nor external certificates required), the descriptor has
no projected TLS pod volume (the pod volumes are exactly the per-zone
container volumes), the container carries only the storage mounts (no
certificate-directory mount), and the non-user-declared part of the env list
contains KMS-related entries exactly when the encryption-key-service is
enabled (five entries) and none otherwise. -/
theorem C1_amended (mi : MinIOInstance) (s : String) (ss : StatefulSet)
    (hAuto : mi.RequiresAutoCertSetup = false)
    (hExt : mi.RequiresExternalCertSetup = false)
    (hss : NewForMinIO mi s = some ss) :
    ss.spec.template.spec.volumes = getVolumesForContainer mi ∧
    ( minioContainerOf ss).map Container.volumeMounts =
      some (if mi.spec.volumesPerServer = 1 then
              [ { name := volumeBaseName mi ++ toString 0,
                  mountPath := MinIOVolumeMountPath } ]
            else
              (List.range mi.spec.volumesPerServer).map fun i =>
                { name := volumeBaseName mi ++ toString i,
                  mountPath := MinIOVolumeMountPath ++ toString i }) ∧
    ( minioContainerOf ss).map
        (fun c => ((c.env.drop mi.spec.env.length).filter
            fun e => kmsEnvNames.contains e.name).length) =
      some (if mi.HasKESEnabled then 5 else 0) := by
  obtain ⟨args, ha, rfl⟩ := newForMinIO_some hss
  refine ⟨?_, ?_, ?_⟩
  · show minioPodVolumes mi = getVolumesForContainer mi
    unfold minioPodVolumes
    rw [hAuto, hExt]
    simp
  · rw [minioContainerOf_build]
    simp only [Option.map_some', Option.some.injEq]
    show volumeMounts mi = _
    unfold volumeMounts
    rw [hAuto, hExt]
    simp
  · rw [minioContainerOf_build]
    simp only [Option.map_some', Option.some.injEq]
    show (((minioEnvironmentVars mi).drop mi.spec.env.length).filter _).length = _
    rw [minioEnvironmentVars_decomp, List.append_assoc, List.drop_left,
        List.filter_append, credsEnvPart_no_kms, List.nil_append]
    exact kesEnvPart_filter mi

/-- Witness for C1 at the concrete instance `exB` (certificate mode none,
KES disabled). -/
theorem C1_witness :
    exB.RequiresAutoCertSetup = false ∧
    exB.RequiresExternalCertSetup = false ∧
    (ssB.spec.template.spec.volumes = getVolumesForContainer exB ∧
     ( minioContainerOf ssB).map Container.volumeMounts =
       some (if exB.spec.volumesPerServer = 1 then
               [ { name := volumeBaseName exB ++ toString 0,
                   mountPath := MinIOVolumeMountPath } ]
             else
               (List.range exB.spec.volumesPerServer).map fun i =>
                 { name := volumeBaseName exB ++ toString i,
                   mountPath := MinIOVolumeMountPath ++ toString i }) ∧
     ( minioContainerOf ssB).map
         (fun c => ((c.env.drop exB.spec.env.length).filter
             fun e => kmsEnvNames.contains e.name).length) =
       some (if exB.HasKESEnabled then 5 else 0)) :=
  ⟨by decide, by decide, C1_amended exB "svc" ssB (by decide) (by decide) (by rfl)⟩

/-- Claim C2, counterexample: when the user selector match-labels bind the
identity key to a different value ("evil"), the pod template label for the
identity key carries the user's value, not the composer's ("good"), so the
selector (which demands "good") is not a subset of the template labels and
the identity label is overridden. -/
theorem C2_counterexample :
    (( NewForMinIO exC2 "svc").map fun ss =>
        (ss.spec.selector.matchLabels,
         lookupKV ss.spec.template.metadata.labels InstanceLabel)) =
      some ([(InstanceLabel, "good")], some "evil") := by
  decide

/-- Claim C2, amended: for every ClusterSpec whose user selector
match-labels do not bind the identity key, the descriptor's selector is
exactly the identity label with the composer's value and the pod template
carries that same binding (so the selector matches the template); the
composer's value wins over user metadata, but user selector match-labels
are applied after the identity label and can override it. -/
theorem C2_amended (mi : MinIOInstance) (s : String) (ss : StatefulSet)
    (hss : NewForMinIO mi s = some ss)
    (hsel : ∀ sel, mi.spec.selector = some sel →
      lookupKV sel.matchLabels InstanceLabel = none) :
    ss.spec.selector.matchLabels = [(InstanceLabel, mi.minIOStatefulSetName)] ∧
    lookupKV ss.spec.template.metadata.labels InstanceLabel =
      some mi.minIOStatefulSetName := by
  obtain ⟨args, ha, rfl⟩ := newForMinIO_some hss
  refine ⟨rfl, ?_⟩
  show lookupKV (minioMetadata mi).labels InstanceLabel = _
  unfold minioMetadata
  cases hs : mi.spec.selector with
  | none =>
      exact lookupKV_insertLabel_self (mi.spec.metadata.getD {}).labels _ _
  | some sel =>
      have hnone := hsel sel hs
      show lookupKV (overlayLabels (overlayLabels (mi.spec.metadata.getD {}).labels
          mi.MinIOPodLabels) sel.matchLabels) InstanceLabel = _
      rw [lookupKV_overlay_of_none _ _ _ hnone]
      exact lookupKV_insertLabel_self (mi.spec.metadata.getD {}).labels _ _

/-- Witness for C2 at the concrete instance `exB` (no user selector). -/
theorem C2_witness :
    ssB.spec.selector.matchLabels = [(InstanceLabel, exB.minIOStatefulSetName)] ∧
    lookupKV ssB.spec.template.metadata.labels InstanceLabel =
      some exB.minIOStatefulSetName :=
  C2_amended exB "svc" ssB (by rfl) (fun sel h => nomatch h)

/-- Claim C3, counterexample: with no persistent template, two zones and one
volume per server, the pod has two ephemeral volumes but the container has
one mount (and no certificates are required), refuting the claimed equality
between mount count and pod-level ephemeral volume count. -/
theorem C3_counterexample :
    exC3.RequiresAutoCertSetup = false ∧
    exC3.RequiresExternalCertSetup = false ∧
    exC3.spec.volumeClaimTemplate = none ∧
    (( NewForMinIO exC3 "svc").map fun ss =>
        (ss.spec.template.spec.volumes.length,
         ss.spec.template.spec.containers.map fun c => c.volumeMounts.length)) =
      some (2, [1]) := by
  refine ⟨rfl, rfl, rfl, ?_⟩
  decide

/-- Claim C3, amended: for every ClusterSpec, the container's mount count is
the configured volumes-per-replica (whether storage is ephemeral or
persistent) plus exactly one additional mount iff certificate material is
required; the pod-level volume count is instead one ephemeral volume per
zone when no persistent template is configured (zero otherwise), plus one
for the projected TLS volume iff certificate material is required. -/
theorem C3_amended (mi : MinIOInstance) (s : String) (ss : StatefulSet)
    (hss : NewForMinIO mi s = some ss) :
    ( minioContainerOf ss).map (fun c => c.volumeMounts.length) =
      some (mi.spec.volumesPerServer +
        (if (mi.RequiresAutoCertSetup || mi.RequiresExternalCertSetup) = true
         then 1 else 0)) ∧
    ss.spec.template.spec.volumes.length =
      (if mi.spec.volumeClaimTemplate.isSome then 0 else mi.spec.zones.length) +
        (if (mi.RequiresAutoCertSetup || mi.RequiresExternalCertSetup) = true
         then 1 else 0) := by
  obtain ⟨args, ha, rfl⟩ := newForMinIO_some hss
  constructor
  · rw [minioContainerOf_build]
    simp only [Option.map_some', Option.some.injEq]
    exact volumeMounts_length mi
  · show (minioPodVolumes mi).length = _
    unfold minioPodVolumes getVolumesForContainer
    by_cases hc : (mi.RequiresAutoCertSetup || mi.RequiresExternalCertSetup) = true <;>
      cases ht : mi.spec.volumeClaimTemplate <;>
        simp [hc, ht]

/-- Witness for C3 at the concrete instance `exA` (persistent template with
two volumes per server, certificates required). -/
theorem C3_witness :
    ( minioContainerOf ssA).map (fun c => c.volumeMounts.length) =
      some (exA.spec.volumesPerServer +
        (if (exA.RequiresAutoCertSetup || exA.RequiresExternalCertSetup) = true
         then 1 else 0)) ∧
    ssA.spec.template.spec.volumes.length =
      (if exA.spec.volumeClaimTemplate.isSome then 0 else exA.spec.zones.length) +
        (if (exA.RequiresAutoCertSetup || exA.RequiresExternalCertSetup) = true
         then 1 else 0) :=
  C3_amended exA "svc" ssA (by rfl)

/-- Claim C4, counterexample: two instances whose specs differ in every
configured field produce containers with the identical constant port list
and image pull policy; the input specification carries no port or
pull-policy field, so neither value is "copied verbatim from the
corresponding fields of the input specification". -/
theorem C4_counterexample :
    exC4a.spec ≠ exC4b.spec ∧
    (( NewForMinIO exC4a "s1").bind minioContainerOf).map
        (fun c => (c.ports, c.imagePullPolicy)) =
      some ([ { containerPort := MinIOPort } ], DefaultImagePullPolicy) ∧
    (( NewForMinIO exC4b "s2").bind minioContainerOf).map
        (fun c => (c.ports, c.imagePullPolicy)) =
      some ([ { containerPort := MinIOPort } ], DefaultImagePullPolicy) := by
  refine ⟨by decide, by decide, by decide⟩

/-- Claim C4, amended: for every ClusterSpec, the produced container's
image, resources, liveness probe and readiness probe are copied verbatim
from the spec, while the port is always the fixed package constant and the
image pull policy is always the package default, independent of the spec. -/
theorem C4_amended (mi : MinIOInstance) (s : String) (ss : StatefulSet)
    (hss : NewForMinIO mi s = some ss) :
    ( minioContainerOf ss).map Container.image = some mi.spec.image ∧
    ( minioContainerOf ss).map Container.resources = some mi.spec.resources ∧
    ( minioContainerOf ss).map Container.livenessProbe = some mi.spec.liveness ∧
    ( minioContainerOf ss).map Container.readinessProbe = some mi.spec.readiness ∧
    ( minioContainerOf ss).map Container.ports =
      some [ { containerPort := MinIOPort } ] ∧
    ( minioContainerOf ss).map Container.imagePullPolicy =
      some DefaultImagePullPolicy := by
  obtain ⟨args, ha, rfl⟩ := newForMinIO_some hss
  exact ⟨rfl, rfl, rfl, rfl, rfl, rfl⟩

/-- Witness for C4 at the concrete instance `exA`. -/
theorem C4_witness :
    ( minioContainerOf ssA).map Container.image = some exA.spec.image ∧
    ( minioContainerOf ssA).map Container.resources = some exA.spec.resources ∧
    ( minioContainerOf ssA).map Container.livenessProbe = some exA.spec.liveness ∧
    ( minioContainerOf ssA).map Container.readinessProbe = some exA.spec.readiness ∧
    ( minioContainerOf ssA).map Container.ports =
      some [ { containerPort := MinIOPort } ] ∧
    ( minioContainerOf ssA).map Container.imagePullPolicy =
      some DefaultImagePullPolicy :=
  C4_amended exA "svc" ssA (by rfl)

/-- Claim C5, confirmed: when certificate material is required, the
descriptor's pod volumes end with one projected TLS volume whose sources are
exactly the primary certificate secret, and — iff the encryption-key-service
is enabled — additionally the client mutual-TLS key-pair secret and the
key-service CA secret, in that order. -/
theorem C5_projected_sources (mi : MinIOInstance) (s : String) (ss : StatefulSet)
    (hss : NewForMinIO mi s = some ss)
    (hcert : (mi.RequiresAutoCertSetup || mi.RequiresExternalCertSetup) = true) :
    ss.spec.template.spec.volumes =
      getVolumesForContainer mi ++
        [ { name := mi.minIOTLSSecretName,
            volumeSource := VolumeSource.projected
              (if mi.HasKESEnabled then
                 [ { secret := { name := (tlsSecretNameAndKeyPaths mi).1,
                                 items := (tlsSecretNameAndKeyPaths mi).2 } },
                   { secret := { name := mi.minIOClientTLSSecretName,
                                 items := MinIOCertKeyPaths } },
                   { secret := { name := mi.kesTLSSecretName,
                                 items := KESCertKeyPaths } } ]
               else
                 [ { secret := { name := (tlsSecretNameAndKeyPaths mi).1,
                                 items := (tlsSecretNameAndKeyPaths mi).2 } } ]) } ] := by
  obtain ⟨args, ha, rfl⟩ := newForMinIO_some hss
  show minioPodVolumes mi = _
  unfold minioPodVolumes
  rw [hcert]
  cases hk : mi.HasKESEnabled <;> simp [hk]

/-- Witness for C5 at the concrete instance `exA` (self-signed certificates,
KES enabled: three sources). -/
theorem C5_witness :
    (exA.RequiresAutoCertSetup || exA.RequiresExternalCertSetup) = true ∧
    ssA.spec.template.spec.volumes =
      getVolumesForContainer exA ++
        [ { name := exA.minIOTLSSecretName,
            volumeSource := VolumeSource.projected
              (if exA.HasKESEnabled then
                 [ { secret := { name := (tlsSecretNameAndKeyPaths exA).1,
                                 items := (tlsSecretNameAndKeyPaths exA).2 } },
                   { secret := { name := exA.minIOClientTLSSecretName,
                                 items := MinIOCertKeyPaths } },
                   { secret := { name := exA.kesTLSSecretName,
                                 items := KESCertKeyPaths } } ]
               else
                 [ { secret := { name := (tlsSecretNameAndKeyPaths exA).1,
                                 items := (tlsSecretNameAndKeyPaths exA).2 } } ]) } ] :=
  ⟨by decide, C5_projected_sources exA "svc" ssA (by rfl) (by decide)⟩

/-- Claim C6, confirmed: with a persistent template configured and
volumes-per-replica N, the descriptor has exactly N volume-claim templates,
each a copy of the user template with the index-suffixed name, and those
names coincide with the names of the container's first N storage mounts. -/
theorem C6_claim_templates (mi : MinIOInstance) (s : String) (ss : StatefulSet)
    (t : PersistentVolumeClaim)
    (ht : mi.spec.volumeClaimTemplate = some t)
    (hss : NewForMinIO mi s = some ss) :
    ss.spec.volumeClaimTemplates =
      (List.range mi.spec.volumesPerServer).map
        (fun i => { t with name := t.name ++ toString i }) ∧
    ss.spec.volumeClaimTemplates.length = mi.spec.volumesPerServer ∧
    ( minioContainerOf ss).map
        (fun c => (c.volumeMounts.take mi.spec.volumesPerServer).map VolumeMount.name) =
      some ((List.range mi.spec.volumesPerServer).map fun i => t.name ++ toString i) := by
  obtain ⟨args, ha, rfl⟩ := newForMinIO_some hss
  refine ⟨?_, ?_, ?_⟩
  · show minioVolumeClaimTemplates mi = _
    unfold minioVolumeClaimTemplates
    rw [ht]
  · show (minioVolumeClaimTemplates mi).length = _
    unfold minioVolumeClaimTemplates
    rw [ht]
    simp
  · rw [minioContainerOf_build]
    simp only [Option.map_some', Option.some.injEq]
    show ((volumeMounts mi).take mi.spec.volumesPerServer).map VolumeMount.name = _
    rw [volumeMounts_take_names mi]
    simp [volumeBaseName, ht]

/-- Witness for C6 at the concrete instance `exA` (template base name
"data", two volumes per server). -/
theorem C6_witness :
    ssA.spec.volumeClaimTemplates =
      (List.range exA.spec.volumesPerServer).map
        (fun i => { name := "data" ++ toString i, claimSpec := "cs" }) ∧
    ssA.spec.volumeClaimTemplates.length = exA.spec.volumesPerServer ∧
    ( minioContainerOf ssA).map
        (fun c => (c.volumeMounts.take exA.spec.volumesPerServer).map VolumeMount.name) =
      some ((List.range exA.spec.volumesPerServer).map fun i => "data" ++ toString i) :=
  C6_claim_templates exA "svc" ssA { name := "data", claimSpec := "cs" } rfl (by rfl)

/-- Claim C7, confirmed: with a non-empty zone list, the container args are
exactly `["server", canonical-path]` when the first zone requests exactly
one server, and otherwise `"server"` followed by one URL-schemed argument
per peer host combining scheme, host and storage path. -/
theorem C7_args (mi : MinIOInstance) (s : String) (ss : StatefulSet)
    (z0 : Zone) (zrest : List Zone)
    (hz : mi.spec.zones = z0 :: zrest)
    (hss : NewForMinIO mi s = some ss) :
    ( minioContainerOf ss).map Container.args =
      some (if z0.servers = 1 then ["server", MinIOVolumeMountPath]
            else "server" :: mi.minIOHosts.map fun h =>
              Scheme ++ "://" ++ h ++ mi.volumePath) := by
  obtain ⟨args, ha, rfl⟩ := newForMinIO_some hss
  rw [minioContainerOf_build]
  simp only [Option.map_some', Option.some.injEq]
  show args = _
  unfold minioArgs at ha
  rw [hz] at ha
  by_cases h1 : z0.servers = 1 <;> simp [h1] at ha ⊢ <;> exact ha.symm

/-- Witness for C7 at the concrete instance `exA` (four servers: one URL
argument per peer host). -/
theorem C7_witness :
    ( minioContainerOf ssA).map Container.args =
      some (if ({ name := "zone-0", servers := 4 } : Zone).servers = 1 then
              ["server", MinIOVolumeMountPath]
            else "server" :: exA.minIOHosts.map fun h =>
              Scheme ++ "://" ++ h ++ exA.volumePath) :=
  C7_args exA "svc" ssA { name := "zone-0", servers := 4 } [] rfl (by rfl)

/-- Claim C8, confirmed: the container env list is exactly the user-declared
entries in order, then (iff a credential secret is configured) two
secret-key reference entries for `accesskey`/`secretkey` with no literal
value, then (iff the encryption-key-service is enabled) the endpoint entry,
the three certificate file path entries and the key-name entry. -/
theorem C8_env_layout (mi : MinIOInstance) :
    minioEnvironmentVars mi =
      (mi.spec.env ++
        (match mi.spec.credsSecret with
         | some cs =>
             [ { name := "MINIO_ACCESS_KEY", value := "",
                 valueFrom := some { name := cs.name, key := "accesskey" } },
               { name := "MINIO_SECRET_KEY", value := "",
                 valueFrom := some { name := cs.name, key := "secretkey" } } ]
         | none => [])) ++
        (if mi.HasKESEnabled then
           [ { name := "MINIO_KMS_KES_ENDPOINT",
               value := "https://" ++ joinHostPort mi.kesServiceHost KESPort,
               valueFrom := none },
             { name := "MINIO_KMS_KES_CERT_FILE",
               value := "/root/.minio/certs/client.crt", valueFrom := none },
             { name := "MINIO_KMS_KES_KEY_FILE",
               value := "/root/.minio/certs/client.key", valueFrom := none },
             { name := "MINIO_KMS_KES_CA_PATH",
               value := "/root/.minio/certs/CAs/server.crt", valueFrom := none },
             { name := "MINIO_KMS_KES_KEY_NAME",
               value := KESMinIOKey, valueFrom := none } ]
         else []) := by
  unfold minioEnvironmentVars
  cases hcs : mi.spec.credsSecret <;> cases hk : mi.HasKESEnabled <;> simp [hcs, hk]

/-- Claim C9, confirmed: the construction succeeds exactly when at least one
zone is configured; under that precondition it is total, and the unguarded
first-zone access is the only source of failure. -/
theorem C9_total (mi : MinIOInstance) (s : String) :
    ( NewForMinIO mi s).isSome = true ↔ mi.spec.zones ≠ [] := by
  unfold NewForMinIO minioServerContainer minioArgs
  cases hz : mi.spec.zones with
  | nil => simp
  | cons z0 zr => by_cases h1 : z0.servers = 1 <;> simp [h1]

/-- Claim C10, confirmed: with an external certificate secret of an
unrecognised type (and self-signed mode off), the projected TLS volume's
first source names the external secret but projects the self-signed
convention's source keys (`public.crt` to `public.crt` and
`CAs/public.crt`, `private.key` to `private.key`). -/
theorem C10_fallback_keypaths (mi : MinIOInstance) (s : String) (ss : StatefulSet)
    (ecs : LocalCertificateReference)
    (hAuto : mi.RequiresAutoCertSetup = false)
    (hExt : mi.spec.externalCertSecret = some ecs)
    (h1 : ecs.type_ ≠ "kubernetes.io/tls")
    (h2 : ecs.type_ ≠ "cert-manager.io/v1alpha2")
    (hss : NewForMinIO mi s = some ss) :
    ss.spec.template.spec.volumes =
      getVolumesForContainer mi ++
        [ { name := mi.minIOTLSSecretName,
            volumeSource := VolumeSource.projected
              (( { secret :=
                    { name := ecs.name,
                      items := [ { key := "public.crt", path := "public.crt" },
                                 { key := "private.key", path := "private.key" },
                                 { key := "public.crt", path := "CAs/public.crt" } ] } }
                  : VolumeProjection) ::
                (if mi.HasKESEnabled then
                   [ { secret := { name := mi.minIOClientTLSSecretName,
                                   items := MinIOCertKeyPaths } },
                     { secret := { name := mi.kesTLSSecretName,
                                   items := KESCertKeyPaths } } ]
                 else [])) } ] := by
  obtain ⟨args, ha, rfl⟩ := newForMinIO_some hss
  have hExtB : mi.RequiresExternalCertSetup = true := by
    unfold MinIOInstance.RequiresExternalCertSetup
    rw [hExt]
    rfl
  have hsnk : tlsSecretNameAndKeyPaths mi = (ecs.name, defaultKeyPaths) := by
    unfold tlsSecretNameAndKeyPaths
    rw [hAuto, hExtB, hExt]
    simp [h1, h2]
  show minioPodVolumes mi = _
  unfold minioPodVolumes
  rw [hAuto, hExtB]
  cases hk : mi.HasKESEnabled <;> simp [hk, hsnk, defaultKeyPaths]

/-- Witness for C10 at the concrete instance `exC` (external secret of type
"mysterious/type"). -/
theorem C10_witness :
    exC.RequiresAutoCertSetup = false ∧
    exC.spec.externalCertSecret =
      some { name := "ext-secret", type_ := "mysterious/type" } ∧
    ssC.spec.template.spec.volumes =
      getVolumesForContainer exC ++
        [ { name := exC.minIOTLSSecretName,
            volumeSource := VolumeSource.projected
              (( { secret :=
                    { name := "ext-secret",
                      items := [ { key := "public.crt", path := "public.crt" },
                                 { key := "private.key", path := "private.key" },
                                 { key := "public.crt", path := "CAs/public.crt" } ] } }
                  : VolumeProjection) ::
                (if exC.HasKESEnabled then
                   [ { secret := { name := exC.minIOClientTLSSecretName,
                                   items := MinIOCertKeyPaths } },
                     { secret := { name := exC.kesTLSSecretName,
                                   items := KESCertKeyPaths } } ]
                 else [])) } ] :=
  ⟨by decide, rfl,
    C10_fallback_keypaths exC "svc" ssC { name := "ext-secret", type_ := "mysterious/type" }
      (by decide) rfl (by decide) (by decide) (by rfl)⟩
